import Mathlib

/-!
Verification of the TechStore catalog service (`src/main.py`).

The relevant Python string primitives, the parameter-validation functions and
the request handlers are shallowly embedded as executable Lean definitions.
SQL execution is modelled as list operations over an in-memory table state:
`WHERE category = %s` is a filter, `ORDER BY` is a stable sort by the named
column, `LIMIT %s OFFSET %s` is `take`/`drop`, `RETURNING` returns the
affected row, and the store-generated `id`/`created_at` come from counters in
the state. Prices are rationals; Python `round(v, 2)` is round-half-to-even
at two decimal digits. HTTP errors are a status code plus a message; where
the Python detail string interpolates the allowed-field list, the model
carries that list in a dedicated `allowed` component.
-/

/-- Decidable equality of `Except` results, so that concrete handler
outcomes can be settled by `decide`. -/
instance exceptDecEq {ε α : Type} [DecidableEq ε] [DecidableEq α] :
    DecidableEq (Except ε α) := fun x y =>
  match x, y with
  | .error a, .error b =>
    match decEq a b with
    | .isTrue h => .isTrue (congrArg Except.error h)
    | .isFalse h => .isFalse (fun hc => h (Except.error.inj hc))
  | .error _, .ok _ => .isFalse fun hc => Except.noConfusion hc
  | .ok _, .error _ => .isFalse fun hc => Except.noConfusion hc
  | .ok a, .ok b =>
    match decEq a b with
    | .isTrue h => .isTrue (congrArg Except.ok h)
    | .isFalse h => .isFalse (fun hc => h (Except.ok.inj hc))

/-- Character-wise ASCII lowercasing, modelling Python `str.lower` on the
ASCII tokens this service receives. -/
def pyLower (s : String) : String := String.mk (s.toList.map Char.toLower)

/-- Character-wise ASCII uppercasing, modelling Python `str.upper`. -/
def pyUpper (s : String) : String := String.mk (s.toList.map Char.toUpper)

/-- `leadsWith p l` is true when `p` is an initial segment of `l`. -/
def leadsWith : List Char → List Char → Bool
  | p :: ps, c :: cs => p == c && leadsWith ps cs
  | pat, _ => pat.isEmpty

/-- Left-to-right, non-overlapping deletion of every occurrence of `pat`,
modelling Python `s.replace(pat, '')`. Structural recursion on a fuel
argument; each step consumes at least one list element, so fuel equal to the
list length (as supplied by `stripAllAux`) is never exhausted. -/
def stripAllFuel (pat : List Char) : Nat → List Char → List Char
  | 0, l => l
  | _ + 1, [] => []
  | fuel + 1, c :: cs =>
    if 0 < pat.length ∧ leadsWith pat (c :: cs) then
      stripAllFuel pat fuel ((c :: cs).drop pat.length)
    else
      c :: stripAllFuel pat fuel cs

/-- Deletion of every occurrence of `pat` from `l`. -/
def stripAllAux (pat l : List Char) : List Char :=
  stripAllFuel pat l.length l

/-- Python `s.replace(pat, '')` on strings. -/
def pyReplaceAll (s pat : String) : String :=
  String.mk (stripAllAux pat.toList s.toList)

/-- Python `s.endswith(suffix)`. -/
def pyEndsWith (s suffix : String) : Bool :=
  leadsWith suffix.toList.reverse s.toList.reverse

/-- An HTTP error response: status code, message, and (for the invalid-sort
rejections, whose Python detail string interpolates the allow-list) the list
of allowed values carried by the detail. -/
structure ApiErr where
  status : Nat
  msg : String
  allowed : List String := []
deriving DecidableEq

/-- `ALLOWED_SORT_FIELDS` from `main.py` line 121. -/
def ALLOWED_SORT_FIELDS : List String :=
  ["id", "name", "price", "category", "created_at"]

/-- `validate_sort_field` from `main.py` lines 125-138: lowercase the token,
delete every `_desc` then every `_asc`, reject if the result is outside the
allow-list, and pick the direction by `endswith('_desc')` on the ORIGINAL
token. -/
def validate_sort_field (sort_field : String) : Except ApiErr String :=
  let field := pyReplaceAll (pyReplaceAll (pyLower sort_field) "_desc") "_asc"
  if field ∉ ALLOWED_SORT_FIELDS then
    .error { status := 400, msg := "Invalid sort field. Allowed fields: ",
             allowed := ALLOWED_SORT_FIELDS }
  else if pyEndsWith sort_field "_desc" then
    .ok (field ++ " DESC")
  else
    .ok (field ++ " ASC")

/-- C1: every caller token either resolves to `<field> ASC` / `<field> DESC`
with `<field>` drawn from the fixed allow-list, or is rejected with a 400
whose detail carries the allow-list; the raw token is never interpolated. -/
theorem validate_sort_field_safe (s : String) :
    (∃ f, f ∈ ALLOWED_SORT_FIELDS ∧
      (validate_sort_field s = .ok (f ++ " ASC") ∨
       validate_sort_field s = .ok (f ++ " DESC"))) ∨
    (validate_sort_field s =
      .error { status := 400, msg := "Invalid sort field. Allowed fields: ",
               allowed := ALLOWED_SORT_FIELDS }) := by
  unfold validate_sort_field
  by_cases h : pyReplaceAll (pyReplaceAll (pyLower s) "_desc") "_asc" ∈ ALLOWED_SORT_FIELDS
  · left
    refine ⟨_, h, ?_⟩
    by_cases h2 : pyEndsWith s "_desc" = true
    · right; simp [h, h2]
    · left; simp [h, h2]
  · right; simp [h]

/-- Witness for C1 at the injection-style token from the spec scenario. -/
theorem validate_sort_field_safe_witness :
    (∃ f, f ∈ ALLOWED_SORT_FIELDS ∧
      (validate_sort_field "; DROP TABLE products" = .ok (f ++ " ASC") ∨
       validate_sort_field "; DROP TABLE products" = .ok (f ++ " DESC"))) ∨
    (validate_sort_field "; DROP TABLE products" =
      .error { status := 400, msg := "Invalid sort field. Allowed fields: ",
               allowed := ALLOWED_SORT_FIELDS }) :=
  validate_sort_field_safe "; DROP TABLE products"

/-- C8: the `_desc`/`_asc` deletion acts anywhere in the token, so
`pri_ascce` — not of the form `f`, `f_asc` or `f_desc` for any allowed
field — is nevertheless accepted and resolves to `price ASC`. -/
theorem strip_anywhere_accepts_scrambled_token :
    validate_sort_field "pri_ascce" = .ok "price ASC" ∧
    (∀ f ∈ ALLOWED_SORT_FIELDS,
      "pri_ascce" ≠ f ∧ "pri_ascce" ≠ f ++ "_asc" ∧ "pri_ascce" ≠ f ++ "_desc") := by
  constructor
  · rfl
  · decide

/-- C9: the descending test runs on the original (un-lowercased) token, so
an upper-case `<FIELD>_DESC` token is accepted but yields ascending order. -/
theorem uppercase_desc_token_gives_asc (f : String) (h : f ∈ ALLOWED_SORT_FIELDS) :
    validate_sort_field (pyUpper f ++ "_DESC") = .ok (f ++ " ASC") := by
  fin_cases h <;> rfl

/-- Witness for C9 at the field `price`. -/
theorem uppercase_desc_token_gives_asc_witness :
    validate_sort_field (pyUpper "price" ++ "_DESC") = .ok ("price" ++ " ASC") :=
  uppercase_desc_token_gives_asc "price" (by decide)

/-! ## Data model and store state -/

/-- A stored product row (`products` table; Pydantic `Product`). Prices are
rationals; `created_at` is an abstract integer timestamp. -/
structure Row where
  id : Int
  name : String
  price : ℚ
  category : String
  description : Option String
  created_at : Int
deriving DecidableEq

/-- A validated creation/update payload (Pydantic `ProductCreate`). -/
structure ProductCreate where
  name : String
  price : ℚ
  category : String
  description : Option String
deriving DecidableEq

/-- The store state: the `products` table plus the generators for the
store-assigned `id` (serial counter) and `created_at` (clock). -/
structure DB where
  rows : List Row
  nextId : Int
  now : Int
deriving DecidableEq

/-- Round to the nearest integer, ties to even — the rounding mode of
Python `round`, taken at face (decimal) value. With `f` the floor of
`x` and `numRem / den` the fractional remainder, `x` rounds down when the
remainder is below one half (`2 * numRem < den`), up when above, and to the
even neighbour on a tie. -/
def roundHalfEven (num den : ℤ) : ℤ :=
  let f : ℤ := Int.fdiv num den
  let numRem : ℤ := num - f * den
  if 2 * numRem < den then f
  else if den < 2 * numRem then f + 1
  else if f % 2 = 0 then f else f + 1

/-- Python `round(v, 2)`: round `v * 100 = (100 * v.num) / v.den` to the
nearest integer (ties to even) and divide by 100. -/
def round2 (v : ℚ) : ℚ := mkRat (roundHalfEven (100 * v.num) (v.den : ℤ)) 100

/-- The `validate_price` Pydantic validator (`main.py` lines 40-44):
reject a non-positive price, round an accepted one to 2 decimal places. -/
def validate_price (v : ℚ) : Except String ℚ :=
  if v ≤ 0 then .error "Price must be greater than 0"
  else .ok (round2 v)

/-- Parsing a raw payload through the `ProductBase` model: the `Field`
constraints (`min_length`/`max_length` on `name` and `category`, `gt=0` on
`price`) and then the `validate_price` validator. -/
def parsePayload (name : String) (price : ℚ) (category : String)
    (description : Option String) : Except String ProductCreate :=
  if ¬ (1 ≤ name.length ∧ name.length ≤ 255) then
    .error "name length out of range"
  else if ¬ (0 < price) then
    .error "price must be greater than 0"
  else if ¬ (1 ≤ category.length ∧ category.length ≤ 100) then
    .error "category length out of range"
  else
    match validate_price price with
    | .error e => .error e
    | .ok p => .ok ⟨name, p, category, description⟩

/-! ## SQL execution model -/

/-- Boolean order on a named column, for `ORDER BY <field>`. -/
def colLe (field : String) (a b : Row) : Bool :=
  if field = "id" then decide (a.id ≤ b.id)
  else if field = "name" then !(decide (b.name < a.name))
  else if field = "price" then decide (a.price ≤ b.price)
  else if field = "category" then !(decide (b.category < a.category))
  else if field = "created_at" then decide (a.created_at ≤ b.created_at)
  else true

/-- The row order induced by an `ORDER BY` direction. -/
def rowLe (field : String) (desc : Bool) (a b : Row) : Bool :=
  if desc then colLe field b a else colLe field a b

/-- How the store reads an `ORDER BY` fragment of the form
`<field> ASC` / `<field> DESC` produced by the validators. -/
def parseOrderFragment (s : String) : String × Bool :=
  if pyEndsWith s " DESC" then (String.mk (s.toList.take (s.length - 5)), true)
  else if pyEndsWith s " ASC" then (String.mk (s.toList.take (s.length - 4)), false)
  else (s, false)

/-- Ordered insertion for the sort model. -/
def insertOrd (le : Row → Row → Bool) (a : Row) : List Row → List Row
  | [] => [a]
  | b :: bs => if le a b then a :: b :: bs else b :: insertOrd le a bs

/-- The `ORDER BY` sort, modelled as insertion sort by the row order. -/
def sortRows (le : Row → Row → Bool) : List Row → List Row
  | [] => []
  | a :: as => insertOrd le a (sortRows le as)

/-- Python truthiness of the optional `category` query parameter:
`None` and the empty string are falsy, so `if category:` appends the
`WHERE category = %s` clause only for a non-empty string. -/
def pyTruthy : Option String → Bool
  | none => false
  | some s => s != ""

/-- The rows the optional `WHERE category = %s` clause keeps. -/
def matchingRows (db : DB) (category : Option String) : List Row :=
  if pyTruthy category then
    db.rows.filter (fun r => r.category == category.getD "")
  else
    db.rows

/-- Executing `SELECT ... FROM products [WHERE category = %s] ORDER BY
<fragment>` — the query shape shared by `get_products` and
`get_sorted_products`. -/
def selectRows (db : DB) (category : Option String) (orderFrag : String) : List Row :=
  let fd := parseOrderFragment orderFrag
  sortRows (rowLe fd.1 fd.2) (matchingRows db category)

/-! ## Request handlers -/

/-- `get_products` (`main.py` lines 161-218): validate the sort token, then
`SELECT ... [WHERE category] ORDER BY {safe_sort} LIMIT %s OFFSET %s`. -/
def get_products (db : DB) (sort_by : String) (category : Option String)
    (skip limit : Nat) : Except ApiErr (List Row) :=
  match validate_sort_field sort_by with
  | .error e => .error e
  | .ok safe_sort => .ok (((selectRows db category safe_sort).drop skip).take limit)

/-- `create_product` (`main.py` lines 240-288): duplicate-name pre-check,
then `INSERT ... RETURNING` with store-assigned `id` and `created_at`. -/
def create_product (db : DB) (product : ProductCreate) : DB × Except ApiErr Row :=
  if db.rows.any (fun r => r.name == product.name) then
    (db, .error { status := 400, msg := "Product with this name already exists" })
  else
    let r : Row :=
      { id := db.nextId, name := product.name, price := product.price,
        category := product.category, description := product.description,
        created_at := db.now }
    ({ rows := db.rows ++ [r], nextId := db.nextId + 1, now := db.now + 1 }, .ok r)

/-- `get_product` (`main.py` lines 300-338). -/
def get_product (db : DB) (product_id : Int) : Except ApiErr Row :=
  if product_id < 1 then
    .error { status := 400, msg := "Product ID must be greater than 0" }
  else
    match db.rows.find? (fun r => r.id == product_id) with
    | none => .error { status := 404, msg := "Product not found" }
    | some r => .ok r

/-- The `UPDATE ... SET name, price, category, description` clause applied to
one row: `id` and `created_at` are not in the SET list. -/
def applyPayload (r : Row) (p : ProductCreate) : Row :=
  { r with name := p.name, price := p.price, category := p.category,
           description := p.description }

/-- `update_product` (`main.py` lines 351-412): id guard, existence check,
duplicate-name check excluding the row itself, then
`UPDATE ... WHERE id = %s RETURNING`. -/
def update_product (db : DB) (product_id : Int) (product : ProductCreate) :
    DB × Except ApiErr Row :=
  if product_id < 1 then
    (db, .error { status := 400, msg := "Product ID must be greater than 0" })
  else if !(db.rows.any (fun r => r.id == product_id)) then
    (db, .error { status := 404, msg := "Product not found" })
  else if db.rows.any (fun r => r.name == product.name && r.id != product_id) then
    (db, .error { status := 400, msg := "Another product with this name already exists" })
  else
    let newRows :=
      db.rows.map (fun r => if r.id == product_id then applyPayload r product else r)
    match newRows.find? (fun r => r.id == product_id) with
    | some r => ({ db with rows := newRows }, .ok r)
    | none => ({ db with rows := newRows },
               .error { status := 500, msg := "Internal server error" })

/-- `delete_product` (`main.py` lines 423-460): id guard, existence check,
`DELETE ... WHERE id = %s`, then a fixed confirmation message. -/
def delete_product (db : DB) (product_id : Int) : DB × Except ApiErr String :=
  if product_id < 1 then
    (db, .error { status := 400, msg := "Product ID must be greater than 0" })
  else
    match db.rows.find? (fun r => r.id == product_id) with
    | none => (db, .error { status := 404, msg := "Product not found" })
    | some _ =>
        ({ db with rows := db.rows.filter (fun r => r.id != product_id) },
         .ok "Product deleted successfully")

/-- The `sort_mapping` dict lookup of `get_sorted_products`
(`main.py` lines 494-505). -/
def sort_mapping_lookup (sort_type : String) : Option String :=
  if sort_type = "name" then some "name ASC"
  else if sort_type = "name_desc" then some "name DESC"
  else if sort_type = "price" then some "price ASC"
  else if sort_type = "price_desc" then some "price DESC"
  else if sort_type = "category" then some "category ASC"
  else if sort_type = "category_desc" then some "category DESC"
  else if sort_type = "id" then some "id ASC"
  else if sort_type = "id_desc" then some "id DESC"
  else if sort_type = "created" then some "created_at ASC"
  else if sort_type = "created_desc" then some "created_at DESC"
  else none

/-- The keys of `sort_mapping`, as carried by the 400 detail. -/
def sortTypeKeys : List String :=
  ["name", "name_desc", "price", "price_desc", "category", "category_desc",
   "id", "id_desc", "created", "created_desc"]

/-- `get_sorted_products` (`main.py` lines 481-531): dict lookup of the sort
type, then `SELECT ... [WHERE category] ORDER BY {sort_expression}` with no
`LIMIT`/`OFFSET`. -/
def get_sorted_products (db : DB) (sort_type : String) (category : Option String) :
    Except ApiErr (List Row) :=
  match sort_mapping_lookup sort_type with
  | none => .error { status := 400, msg := "Invalid sort type. Allowed: ",
                     allowed := sortTypeKeys }
  | some sort_expression => .ok (selectRows db category sort_expression)

/-- Substring test (membership of `sub` anywhere in `s`). -/
def containsSubAux (pat : List Char) : List Char → Bool
  | [] => leadsWith pat []
  | c :: cs => leadsWith pat (c :: cs) || containsSubAux pat cs

/-- Whether `sub` occurs as a substring of `s`. -/
def containsSub (s sub : String) : Bool := containsSubAux sub.toList s.toList

/-! ## Sorting lemmas -/

/-- Ordered insertion permutes. -/
theorem insertOrd_perm (le : Row → Row → Bool) (a : Row) (l : List Row) :
    List.Perm (insertOrd le a l) (a :: l) := by
  induction l with
  | nil => exact List.Perm.refl _
  | cons b bs ih =>
    unfold insertOrd
    by_cases h : le a b
    · simp [h]
    · simp only [h, if_false, Bool.false_eq_true]
      exact ((ih.cons b).trans (List.Perm.swap a b bs))

/-- The sort model returns a permutation of its input. -/
theorem sortRows_perm (le : Row → Row → Bool) (l : List Row) :
    List.Perm (sortRows le l) l := by
  induction l with
  | nil => exact List.Perm.refl _
  | cons a as ih =>
    exact (insertOrd_perm le a (sortRows le as)).trans (ih.cons a)

/-- Rows kept by the optional category clause are stored rows. -/
theorem matchingRows_subset (db : DB) (cat : Option String) (q : Row)
    (hq : q ∈ matchingRows db cat) : q ∈ db.rows := by
  unfold matchingRows at hq
  by_cases h : pyTruthy cat = true
  · rw [if_pos h] at hq
    exact (List.mem_filter.mp hq).1
  · rwa [if_neg h] at hq

/-! ## Claim theorems: payload validation, create, delete -/

/-- C7: a non-positive price is rejected by the validator; an accepted price
is normalized by rounding to 2 decimal places; in particular price 9.999
is stored and returned as 10. -/
theorem price_rejected_or_rounded (v : ℚ) :
    (v ≤ 0 → validate_price v = .error "Price must be greater than 0") ∧
    (0 < v → validate_price v = .ok (round2 v)) ∧
    validate_price (mkRat 9999 1000) = .ok 10 ∧
    (∃ pl db2 row,
      parsePayload "Widget" (mkRat 9999 1000) "Tools" none = .ok pl ∧
      create_product ⟨[], 1, 0⟩ pl = (db2, .ok row) ∧
      row.price = 10 ∧ row ∈ db2.rows) := by
  refine ⟨?_, ?_, by decide, ?_⟩
  · intro h
    simp [validate_price, h]
  · intro h
    simp [validate_price, not_le.mpr h]
  · refine ⟨⟨"Widget", 10, "Tools", none⟩,
      ⟨[⟨1, "Widget", 10, "Tools", none, 0⟩], 2, 1⟩,
      ⟨1, "Widget", 10, "Tools", none, 0⟩, by decide, by decide, rfl, by decide⟩

/-- Witness for C7 at prices -1 and 1/2. -/
theorem price_rejected_or_rounded_witness :
    validate_price (-1) = .error "Price must be greater than 0" ∧
    validate_price (1/2) = .ok (round2 (1/2)) :=
  ⟨(price_rejected_or_rounded (-1)).1 (by norm_num),
   (price_rejected_or_rounded (1/2)).2.1 (by norm_num)⟩

/-- C2: creating a product whose name is already present fails with the
400 duplicate-name conflict and leaves the stored rows (and row count)
unchanged. -/
theorem create_duplicate_rejected (db : DB) (p : ProductCreate) (q : Row)
    (hq : q ∈ db.rows) (hname : q.name = p.name) :
    create_product db p =
      (db, .error { status := 400, msg := "Product with this name already exists" }) ∧
    (create_product db p).1.rows.length = db.rows.length := by
  have hany : db.rows.any (fun r => r.name == p.name) = true :=
    List.any_eq_true.mpr ⟨q, hq, by simp [hname]⟩
  refine ⟨?_, ?_⟩ <;> simp [create_product, hany]

/-- Witness for C2: a second "Alpha" is rejected and the table is unchanged. -/
theorem create_duplicate_rejected_witness :
    create_product ⟨[⟨1, "Alpha", 5, "Tools", none, 0⟩], 2, 1⟩ ⟨"Alpha", 3, "Toys", none⟩ =
      (⟨[⟨1, "Alpha", 5, "Tools", none, 0⟩], 2, 1⟩,
       .error { status := 400, msg := "Product with this name already exists" }) ∧
    (create_product ⟨[⟨1, "Alpha", 5, "Tools", none, 0⟩], 2, 1⟩
        ⟨"Alpha", 3, "Toys", none⟩).1.rows.length =
      (⟨[⟨1, "Alpha", 5, "Tools", none, 0⟩], 2, 1⟩ : DB).rows.length :=
  create_duplicate_rejected _ _ ⟨1, "Alpha", 5, "Tools", none, 0⟩ (by decide) (by decide)

/-- C5 counterexample: the 200 response of `delete_product` is the constant
message `Product deleted successfully` — identical for two different
products — and contains neither the deleted product's name nor its id, so
the response does not carry the deleted product's identifying info. -/
theorem delete_response_constant_cex :
    (delete_product ⟨[⟨1, "Alpha", 5, "Tools", none, 0⟩], 2, 1⟩ 1).2
      = .ok "Product deleted successfully" ∧
    (delete_product ⟨[⟨2, "Beta", 7, "Toys", none, 0⟩], 3, 1⟩ 2).2
      = .ok "Product deleted successfully" ∧
    containsSub "Product deleted successfully" "Alpha" = false ∧
    containsSub "Product deleted successfully" "1" = false := by
  refine ⟨by decide, by decide, by decide, by decide⟩

/-- C5 amended: for every id with a matching row, `delete_product` removes
that row (other rows survive) and returns 200 with the fixed confirmation
message, which does not include the deleted product's identifying info. -/
theorem delete_removes_row (db : DB) (pid : Int) (r : Row)
    (hid : 1 ≤ pid) (hr : r ∈ db.rows) (hrid : r.id = pid) :
    delete_product db pid =
      ({ db with rows := db.rows.filter (fun q => q.id != pid) },
       .ok "Product deleted successfully") ∧
    r ∉ (delete_product db pid).1.rows ∧
    (∀ q ∈ db.rows, q.id ≠ pid → q ∈ (delete_product db pid).1.rows) := by
  have hg : ¬ (pid < 1) := by omega
  obtain ⟨x, hx⟩ : ∃ x, db.rows.find? (fun q => q.id == pid) = some x := by
    cases hf : db.rows.find? (fun q => q.id == pid) with
    | some x => exact ⟨x, rfl⟩
    | none =>
      exact absurd (by simp [hrid] : (fun q => q.id == pid) r = true)
        (by simpa using List.find?_eq_none.mp hf r hr)
  have hstep : delete_product db pid =
      ({ db with rows := db.rows.filter (fun q => q.id != pid) },
       .ok "Product deleted successfully") := by
    unfold delete_product
    rw [if_neg hg, hx]
  refine ⟨hstep, ?_, ?_⟩
  · rw [hstep]
    intro hmem
    have := (List.mem_filter.mp hmem).2
    simp [hrid] at this
  · intro q hq hqid
    rw [hstep]
    exact List.mem_filter.mpr ⟨hq, by simpa using hqid⟩

/-- Witness for the amended C5, deleting the only row of a one-row table. -/
theorem delete_removes_row_witness :
    delete_product ⟨[⟨1, "Alpha", 5, "Tools", none, 0⟩], 2, 1⟩ 1 =
      (⟨List.filter (fun q => q.id != 1) [⟨1, "Alpha", 5, "Tools", none, 0⟩], 2, 1⟩,
       .ok "Product deleted successfully") ∧
    (⟨1, "Alpha", 5, "Tools", none, 0⟩ : Row) ∉
      (delete_product ⟨[⟨1, "Alpha", 5, "Tools", none, 0⟩], 2, 1⟩ 1).1.rows ∧
    (∀ q ∈ (⟨[⟨1, "Alpha", 5, "Tools", none, 0⟩], 2, 1⟩ : DB).rows, q.id ≠ 1 →
      q ∈ (delete_product ⟨[⟨1, "Alpha", 5, "Tools", none, 0⟩], 2, 1⟩ 1).1.rows) :=
  delete_removes_row _ 1 ⟨1, "Alpha", 5, "Tools", none, 0⟩ (by decide) (by decide) (by decide)

/-! ## Claim theorems: update -/

/-- After the `UPDATE ... WHERE id = %s` row rewrite, the `RETURNING` fetch
finds the updated version of the unique row that had the id. -/
theorem find_map_update (rows : List Row) (pid : Int) (p : ProductCreate) (r : Row)
    (hr : r ∈ rows) (hrid : r.id = pid)
    (hnodup : (rows.map Row.id).Nodup) :
    (rows.map (fun q => if q.id == pid then applyPayload q p else q)).find?
      (fun q => q.id == pid) = some (applyPayload r p) := by
  induction rows with
  | nil => cases hr
  | cons a as ih =>
    simp only [List.map_cons] at hnodup ⊢
    rcases List.mem_cons.mp hr with rfl | hr2
    · have ha : (r.id == pid) = true := by simp [hrid]
      rw [if_pos ha]
      exact List.find?_cons_of_pos _ (by simp [applyPayload, hrid])
    · have hane : a.id ≠ pid := by
        intro h
        have hmem : a.id ∈ as.map Row.id := by
          rw [h, ← hrid]
          exact List.mem_map_of_mem Row.id hr2
        exact (List.nodup_cons.mp hnodup).1 hmem
      have ha : (a.id == pid) = false := by simp [hane]
      rw [if_neg (by simp [hane])]
      rw [List.find?_cons_of_neg _ (by simp [hane])]
      exact ih hr2 (List.nodup_cons.mp hnodup).2

/-- C3: for a present product (unique ids) and a payload whose name no other
row holds, `update_product` succeeds, the returned row keeps the original
id and created_at while taking the payload's name/price/category/description,
the table keeps its size, and every other row is untouched (same position,
same contents); nothing not previously stored appears except the updated
row. -/
theorem update_replaces_exactly (db : DB) (pid : Int) (p : ProductCreate) (r : Row)
    (hid : 1 ≤ pid) (hr : r ∈ db.rows) (hrid : r.id = pid)
    (hnodup : (db.rows.map Row.id).Nodup)
    (hname : ∀ q ∈ db.rows, q.name = p.name → q.id = pid) :
    ∃ db2 r2,
      update_product db pid p = (db2, .ok r2) ∧
      r2.id = r.id ∧ r2.created_at = r.created_at ∧
      r2.name = p.name ∧ r2.price = p.price ∧
      r2.category = p.category ∧ r2.description = p.description ∧
      db2.rows.length = db.rows.length ∧
      r2 ∈ db2.rows ∧
      (∀ i (h : i < db.rows.length), db.rows[i].id ≠ pid →
        db2.rows[i]? = some db.rows[i]) ∧
      (∀ q ∈ db2.rows, q = r2 ∨ q ∈ db.rows) := by
  have hg : ¬ (pid < 1) := by omega
  have hany : db.rows.any (fun q => q.id == pid) = true :=
    List.any_eq_true.mpr ⟨r, hr, by simp [hrid]⟩
  have hdup : db.rows.any (fun q => q.name == p.name && q.id != pid) = false := by
    rw [List.any_eq_false]
    intro q hq
    simp only [Bool.and_eq_true, beq_iff_eq, bne_iff_ne]
    intro hc
    exact hc.2 (hname q hq hc.1)
  have hfind := find_map_update db.rows pid p r hr hrid hnodup
  have hstep : update_product db pid p =
      ({ db with rows :=
          db.rows.map (fun q => if q.id == pid then applyPayload q p else q) },
       .ok (applyPayload r p)) := by
    unfold update_product
    rw [if_neg hg, hany, hdup]
    simp only [Bool.not_true, Bool.false_eq_true, if_false, hfind]
  refine ⟨_, applyPayload r p, hstep, rfl, rfl, rfl, rfl, rfl, rfl, ?_, ?_, ?_, ?_⟩
  · simp
  · exact List.mem_map.mpr ⟨r, hr, by simp [hrid]⟩
  · intro i h hne
    simp only [List.getElem?_map, List.getElem?_eq_getElem h]
    simp [hne]
  · intro q hq
    rcases List.mem_map.mp hq with ⟨q0, hq0, rfl⟩
    by_cases h0 : q0.id = pid
    · left
      have hq0r : q0 = r :=
        List.inj_on_of_nodup_map hnodup hq0 hr (by rw [h0, hrid])
      subst hq0r
      simp [h0]
    · right
      simpa [h0] using hq0

/-- Witness for C3: renaming product 1 of a two-row table. -/
theorem update_replaces_exactly_witness :
    ∃ db2 r2,
      update_product ⟨[⟨1, "Alpha", 5, "Tools", none, 0⟩,
                       ⟨2, "Beta", 7, "Toys", none, 0⟩], 3, 5⟩ 1
          ⟨"Gamma", 9, "Home", some "x"⟩ = (db2, .ok r2) ∧
      r2.id = (⟨1, "Alpha", 5, "Tools", none, 0⟩ : Row).id ∧
      r2.created_at = (⟨1, "Alpha", 5, "Tools", none, 0⟩ : Row).created_at ∧
      r2.name = "Gamma" ∧ r2.price = 9 ∧
      r2.category = "Home" ∧ r2.description = some "x" ∧
      db2.rows.length = (⟨[⟨1, "Alpha", 5, "Tools", none, 0⟩,
                           ⟨2, "Beta", 7, "Toys", none, 0⟩], 3, 5⟩ : DB).rows.length ∧
      r2 ∈ db2.rows ∧
      (∀ i (h : i < (⟨[⟨1, "Alpha", 5, "Tools", none, 0⟩,
                       ⟨2, "Beta", 7, "Toys", none, 0⟩], 3, 5⟩ : DB).rows.length),
        (⟨[⟨1, "Alpha", 5, "Tools", none, 0⟩,
           ⟨2, "Beta", 7, "Toys", none, 0⟩], 3, 5⟩ : DB).rows[i].id ≠ 1 →
        db2.rows[i]? = some (⟨[⟨1, "Alpha", 5, "Tools", none, 0⟩,
                               ⟨2, "Beta", 7, "Toys", none, 0⟩], 3, 5⟩ : DB).rows[i]) ∧
      (∀ q ∈ db2.rows, q = r2 ∨
        q ∈ (⟨[⟨1, "Alpha", 5, "Tools", none, 0⟩,
               ⟨2, "Beta", 7, "Toys", none, 0⟩], 3, 5⟩ : DB).rows) :=
  update_replaces_exactly _ 1 ⟨"Gamma", 9, "Home", some "x"⟩
    ⟨1, "Alpha", 5, "Tools", none, 0⟩ (by decide) (by decide) (by decide)
    (by decide) (by decide)

/-! ## Claim theorems: list endpoints -/

/-- An empty-string category filter is falsy in `if category:`, so the
query is built exactly as with no filter. -/
theorem selectRows_empty_cat (db : DB) (f : String) :
    selectRows db (some "") f = selectRows db none f := rfl

/-- C4: a successful `get_products` returns at most `limit` rows, all drawn
from the store, matching a non-empty category filter exactly when one is
supplied; the result is the `skip`-offset window of the sort-ordered
(filtered) sequence, and an empty category filter behaves like an absent
one. -/
theorem get_products_window (db : DB) (sb : String) (cat : Option String)
    (skip limit : Nat) (res : List Row)
    (hok : get_products db sb cat skip limit = .ok res) :
    res.length ≤ limit ∧
    (∀ p ∈ res, p ∈ db.rows) ∧
    (∀ c, cat = some c → c ≠ "" → ∀ p ∈ res, p.category = c) ∧
    (∀ safe, validate_sort_field sb = .ok safe →
      ∀ i (h : i < res.length),
        (selectRows db cat safe)[skip + i]? = some (res.get ⟨i, h⟩)) ∧
    get_products db sb (some "") skip limit = get_products db sb none skip limit := by
  obtain ⟨safe0, hv, hres⟩ : ∃ sf, validate_sort_field sb = .ok sf ∧
      res = ((selectRows db cat sf).drop skip).take limit := by
    unfold get_products at hok
    cases hv : validate_sort_field sb with
    | error e => rw [hv] at hok; cases hok
    | ok sf => rw [hv] at hok; exact ⟨sf, rfl, (Except.ok.inj hok).symm⟩
  subst hres
  refine ⟨List.length_take_le _ _, ?_, ?_, ?_, ?_⟩
  · intro p hp
    have h2 : p ∈ selectRows db cat safe0 :=
      List.mem_of_mem_drop (List.mem_of_mem_take hp)
    exact matchingRows_subset db cat p (((sortRows_perm _ _).mem_iff).mp h2)
  · intro c hc hne p hp
    subst hc
    have h2 : p ∈ selectRows db (some c) safe0 :=
      List.mem_of_mem_drop (List.mem_of_mem_take hp)
    have h3 : p ∈ matchingRows db (some c) := ((sortRows_perm _ _).mem_iff).mp h2
    unfold matchingRows at h3
    rw [if_pos (by simp [pyTruthy, hne])] at h3
    simpa using (List.mem_filter.mp h3).2
  · intro safe hsafe i h
    rw [hv] at hsafe
    obtain rfl : safe0 = safe := Except.ok.inj hsafe
    have hi2 : i < limit := lt_of_lt_of_le h (List.length_take_le _ _)
    calc (selectRows db cat safe0)[skip + i]?
        = ((selectRows db cat safe0).drop skip)[i]? :=
          (List.getElem?_drop _ _ _).symm
      _ = (((selectRows db cat safe0).drop skip).take limit)[i]? :=
          (List.getElem?_take_of_lt hi2).symm
      _ = some ((((selectRows db cat safe0).drop skip).take limit).get ⟨i, h⟩) := by
          rw [List.getElem?_eq_getElem h]
          simp [List.get_eq_getElem]
  · unfold get_products
    cases hv2 : validate_sort_field sb <;> rfl

/-- A five-product fixture row: category `C`, no description, timestamp 0. -/
def widRow (i : Int) (nm : String) (pr : ℚ) : Row := ⟨i, nm, pr, "C", none, 0⟩

/-- A five-product store keyed 1-5 with ascending prices. -/
def db5 : DB :=
  ⟨[widRow 1 "a" 10, widRow 2 "b" 20, widRow 3 "c" 30,
    widRow 4 "d" 40, widRow 5 "e" 50], 6, 1⟩

/-- Witness for C4: `price_desc` with `skip 1, limit 2` over five products
returns exactly the rows ranked 2nd and 3rd by descending price. -/
theorem get_products_window_witness :
    ([widRow 4 "d" 40, widRow 3 "c" 30] : List Row).length ≤ 2 ∧
    (∀ p ∈ ([widRow 4 "d" 40, widRow 3 "c" 30] : List Row), p ∈ db5.rows) ∧
    (∀ c, (none : Option String) = some c → c ≠ "" →
      ∀ p ∈ ([widRow 4 "d" 40, widRow 3 "c" 30] : List Row), p.category = c) ∧
    (∀ safe, validate_sort_field "price_desc" = .ok safe →
      ∀ i (h : i < ([widRow 4 "d" 40, widRow 3 "c" 30] : List Row).length),
        (selectRows db5 none safe)[1 + i]? =
          some (([widRow 4 "d" 40, widRow 3 "c" 30] : List Row).get ⟨i, h⟩)) ∧
    get_products db5 "price_desc" (some "") 1 2 =
      get_products db5 "price_desc" none 1 2 :=
  get_products_window db5 "price_desc" none 1 2
    [widRow 4 "d" 40, widRow 3 "c" 30] (by decide)

/-- The `sort_mapping` dict of `main.py` lines 494-505 as key/value pairs. -/
def sortPairs : List (String × String) :=
  [("name", "name ASC"), ("name_desc", "name DESC"), ("price", "price ASC"),
   ("price_desc", "price DESC"), ("category", "category ASC"),
   ("category_desc", "category DESC"), ("id", "id ASC"), ("id_desc", "id DESC"),
   ("created", "created_at ASC"), ("created_desc", "created_at DESC")]

/-- C6: `get_sorted_products` accepts exactly the ten sort_type literals,
each mapped to its column/direction pair (with `created`/`created_desc`
resolving to the `created_at` column); every other sort_type is rejected
with the 400 invalid-sort-type error. -/
theorem sort_type_mapping (s : String) :
    ((sort_mapping_lookup s).isSome ↔ s ∈ sortTypeKeys) ∧
    (∀ e, sort_mapping_lookup s = some e ↔ (s, e) ∈ sortPairs) ∧
    (s ∉ sortTypeKeys → ∀ db cat,
      get_sorted_products db s cat =
        .error { status := 400, msg := "Invalid sort type. Allowed: ",
                 allowed := sortTypeKeys }) := by
  have hnone : s ∉ sortTypeKeys → sort_mapping_lookup s = none := by
    intro hs
    unfold sort_mapping_lookup
    split_ifs with h1 h2 h3 h4 h5 h6 h7 h8 h9 h10 <;> simp_all [sortTypeKeys]
  refine ⟨?_, ?_, ?_⟩
  · constructor
    · intro hsome
      by_contra hs
      rw [hnone hs] at hsome
      simp at hsome
    · intro hs
      fin_cases hs <;> decide
  · intro e
    constructor
    · intro h
      by_cases hk : s ∈ sortTypeKeys
      · fin_cases hk <;>
        · obtain rfl := Option.some.inj h
          decide
      · rw [hnone hk] at h
        cases h
    · intro hm
      fin_cases hm <;> rfl
  · intro hs db cat
    unfold get_sorted_products
    rw [hnone hs]

/-- Witness for C6: `bogus` is rejected with the 400 error and
`created_desc` is an accepted key. -/
theorem sort_type_mapping_witness :
    get_sorted_products ⟨[], 1, 0⟩ "bogus" none =
      .error { status := 400, msg := "Invalid sort type. Allowed: ",
               allowed := sortTypeKeys } ∧
    ((sort_mapping_lookup "created_desc").isSome ↔ "created_desc" ∈ sortTypeKeys) :=
  ⟨(sort_type_mapping "bogus").2.2 (by decide) ⟨[], 1, 0⟩ none,
   (sort_type_mapping "created_desc").1⟩

/-- C10: a successful `get_sorted_products` applies no `LIMIT`/`OFFSET`:
the result is a permutation of all rows kept by the (optional) category
filter — same length, same members, with no bound on the size. -/
theorem sorted_products_no_pagination (db : DB) (s : String) (cat : Option String)
    (res : List Row) (hok : get_sorted_products db s cat = .ok res) :
    List.Perm res (matchingRows db cat) ∧
    res.length = (matchingRows db cat).length ∧
    (∀ p, p ∈ res ↔ p ∈ matchingRows db cat) := by
  obtain ⟨e, -, rfl⟩ : ∃ e, sort_mapping_lookup s = some e ∧
      res = selectRows db cat e := by
    unfold get_sorted_products at hok
    cases hl : sort_mapping_lookup s with
    | none => rw [hl] at hok; cases hok
    | some e => rw [hl] at hok; exact ⟨e, rfl, (Except.ok.inj hok).symm⟩
  have hperm : List.Perm (selectRows db cat e) (matchingRows db cat) :=
    sortRows_perm _ _
  exact ⟨hperm, hperm.length_eq, fun p => hperm.mem_iff⟩

/-- Witness for C10: sorting a two-row store by `price` returns both rows. -/
theorem sorted_products_no_pagination_witness :
    List.Perm [widRow 1 "a" 10, widRow 2 "b" 20]
      (matchingRows ⟨[widRow 1 "a" 10, widRow 2 "b" 20], 3, 1⟩ none) ∧
    ([widRow 1 "a" 10, widRow 2 "b" 20] : List Row).length =
      (matchingRows ⟨[widRow 1 "a" 10, widRow 2 "b" 20], 3, 1⟩ none).length ∧
    (∀ p, p ∈ ([widRow 1 "a" 10, widRow 2 "b" 20] : List Row) ↔
      p ∈ matchingRows ⟨[widRow 1 "a" 10, widRow 2 "b" 20], 3, 1⟩ none) :=
  sorted_products_no_pagination ⟨[widRow 1 "a" 10, widRow 2 "b" 20], 3, 1⟩
    "price" none [widRow 1 "a" 10, widRow 2 "b" 20] (by decide)
